import Mathlib

/-!
Verification development for the health_export_system repository.

The repository ingests sleep, exercise and blood-glucose payloads through
three transports (Flask REST in `api_server.py`, a gRPC server in
`grpc/grpc_server.py`, and a FastAPI-to-gRPC gateway in `grpc/gateway.py`)
and upserts normalized rows into MySQL tables keyed by a natural key
(date for sleep, timestamp for exercise and glucose).

Modelling conventions, used throughout:
- Python dict access `d.get(k, default)` on a possibly-absent key is an
  `Option` field; `d.get(k, '')` followed by a truthiness test is modelled
  by the `truthy*` helpers below (Python treats `''`, `0`, `0.0` and `None`
  as falsy).
- JSON numbers are rationals (`ℚ`); every numeric literal appearing in the
  claims is exactly representable in binary floating point, so `ℚ`
  arithmetic agrees with Python float arithmetic on all inputs considered.
- Python `int(x)` on a float truncates toward zero: `pyInt`.
- `s.split()[0]` on a date-time string is `pySplitFirst` (the repository
  only ever applies it after a non-emptiness truthiness check).
- The MySQL tables are association lists from the natural key (a `String`)
  to a row holding the mutable fields plus `created_at` / `updated_at`
  counters.  `INSERT ... ON DUPLICATE KEY UPDATE col = VALUES(col), ...`
  is `storeUpsert`: insert a fresh row stamping both audit counters, or
  replace every mutable field in place and restamp `updated_at`.
- MySQL (strict mode) rejects the empty string for a `NOT NULL`
  DATE/DATETIME column; executing such an insert raises in the driver.
  A loop body that wraps `cursor.execute` in `try/except ... continue`
  therefore skips such a record (`RecStep.skip` after classification),
  while a loop with no per-record handler propagates the exception
  (`RecStep.raise_`, driving `batchLoopStrict` into `.error`).
- Database connectivity (`get_db_connection`) is a boolean `dbUp`
  parameter: `false` models the case where neither the ping-reconnect nor
  the fresh connection attempt succeeds and the helper returns `None`.
-/

/-- Python `int()` truncation toward zero of a rational. -/
def pyInt (q : ℚ) : ℤ := Int.tdiv q.num (q.den : ℤ)

/-- Python `s.split()[0]`: first whitespace-separated token (leading
whitespace dropped).  The repository only applies it to non-empty strings. -/
def pySplitFirst (s : String) : String :=
  ⟨(s.toList.dropWhile (fun c => c = ' ')).takeWhile (fun c => c ≠ ' ')⟩

/-- Python `s or None` for a string: empty string becomes SQL NULL. -/
def truthyStr (s : String) : Option String := if s = "" then none else some s

/-- Python `int(x) if x else None` where `x` is an int already: 0 becomes NULL. -/
def truthyZ (n : ℤ) : Option ℤ := if n = 0 then none else some n

/-- Python `float(x) if x else None` where `x` is a float already: 0.0 becomes NULL. -/
def truthyQ (q : ℚ) : Option ℚ := if q = 0 then none else some q

/-- Python `int(x) if x else None` on an optional int (absent or `''` is falsy). -/
def truthyIntOpt : Option ℤ → Option ℤ
  | some n => truthyZ n
  | none => none

/-- Python `float(x) if x else None` on an optional float. -/
def truthyRatOpt : Option ℚ → Option ℚ
  | some q => truthyQ q
  | none => none

/-- Python `int(x) if x else None` on an optional float quantity (truncating). -/
def truthyIntOfRatOpt : Option ℚ → Option ℤ
  | some q => if q = 0 then none else some (pyInt q)
  | none => none

/-! ## Generic modelled MySQL table -/
/-- A stored row: the mutable (non-key) columns plus the two audit columns. -/
structure StoreRow (γ : Type) where
  fields : γ
  createdAt : ℕ
  updatedAt : ℕ
deriving DecidableEq, Repr

/-- A table: association list from natural key to row, in insertion order. -/
abbrev Store (γ : Type) := List (String × StoreRow γ)

/-- Find the row stored under key `k`. -/
def storeFind (k : String) : Store γ → Option (StoreRow γ)
  | [] => none
  | (k', r) :: rest => if k' = k then some r else storeFind k rest

/-- Mutable fields stored under key `k`. -/
def storeFields (k : String) (s : Store γ) : Option γ :=
  (storeFind k s).map StoreRow.fields

/-- MySQL `INSERT ... ON DUPLICATE KEY UPDATE col = VALUES(col)` at clock `t`:
fresh key inserts a row with `created_at = updated_at = t`; an existing key
has every mutable field replaced and `updated_at` restamped. -/
def storeUpsert (k : String) (f : γ) (t : ℕ) : Store γ → Store γ
  | [] => [(k, ⟨f, t, t⟩)]
  | (k', r) :: rest =>
    if k' = k then (k', ⟨f, r.createdAt, t⟩) :: rest
    else (k', r) :: storeUpsert k f t rest

/-- Natural keys present in the table, in row order. -/
def storeKeys (s : Store γ) : List String := s.map Prod.fst

/-- Outcome of one loop iteration over a record, determined by the record:
it is skipped (failing a pre-check, or its insert raising inside a
per-record `try/except`), stored under a key, or it raises out of the loop. -/
inductive RecStep (γ : Type) where
  | skip
  | put (key : String) (fields : γ)
  | raise_
deriving DecidableEq, Repr

/-- Loop with a per-record `try/except ... continue` around the insert, as in
the REST `save_*_to_rds` helpers: a raising record is logged and skipped, a
stored record bumps the success count. -/
def batchLoop (classify : β → RecStep γ) (t : ℕ) :
    List β → Store γ → ℕ → Store γ × ℕ
  | [], s, n => (s, n)
  | r :: rs, s, n =>
    match classify r with
    | .put k f => batchLoop classify t rs (storeUpsert k f t s) (n + 1)
    | _ => batchLoop classify t rs s n

/-- Loop with no per-record handler, as in the gRPC `Export*` bodies: a
raising record propagates the exception out of the whole call (`.error`),
before the final commit. -/
def batchLoopStrict (classify : β → RecStep γ) (t : ℕ) :
    List β → Store γ → ℕ → Except Unit (Store γ × ℕ)
  | [], s, n => .ok (s, n)
  | r :: rs, s, n =>
    match classify r with
    | .put k f => batchLoopStrict classify t rs (storeUpsert k f t s) (n + 1)
    | .skip => batchLoopStrict classify t rs s n
    | .raise_ => .error ()

/-- Fields of the last record in the list that `classify` stores under key
`k`, if any: the value that last-write-wins leaves at `k`. -/
def lastPutValue (classify : β → RecStep γ) (k : String) : List β → Option γ
  | [] => none
  | r :: rs =>
    match lastPutValue classify k rs with
    | some v => some v
    | none =>
      match classify r with
      | .put k' f => if k' = k then some f else none
      | _ => none

deriving instance DecidableEq for Except

/-- Predicate: `classify` stores this record (as opposed to skipping or raising). -/
def isPut (classify : β → RecStep γ) (r : β) : Bool :=
  match classify r with
  | .put _ _ => true
  | _ => false

/-! ## Sleep data model and pipeline -/
/-- Raw per-day sleep sample inside `data.metrics[].data[]` of the Auto
Export payload, as read by `receive_sleep_data` and the gateway
`ingest_sleep`: each field is the value under the given key, `none` when the
key is absent. -/
structure SleepSample where
  date : Option String
  inBedStart : Option String
  inBedEnd : Option String
  totalSleep : Option ℚ
  deep : Option ℚ
  core : Option ℚ
  rem : Option ℚ
deriving DecidableEq, Repr

/-- One entry of `data.metrics[]`: its `data` key, when present. -/
structure SleepMetric where
  data : Option (List SleepSample)
deriving DecidableEq, Repr

/-- The `data` object of a sleep payload: its `metrics` key, when present. -/
structure SleepDataBody where
  metrics : Option (List SleepMetric)
deriving DecidableEq, Repr

/-- A decoded sleep request body; `none` when the body is falsy or has no
`data` key. -/
abbrev SleepPayload : Type := Option SleepDataBody

/-- Intermediate dict built by `receive_sleep_data` for each sample.  In the
Python, `sleep_duration_minutes` and friends hold either an `int` or the
empty string; the empty string is `none` here.  `sleep_efficiency` and the
heart-rate fields are always set to the empty string by the normalizer but
are read back by `save_sleep_to_rds`, so they stay in the model. -/
structure ParsedSleep where
  date : String
  bedtime : String
  wake_time : String
  sleep_duration_minutes : Option ℤ
  deep_sleep_minutes : Option ℤ
  light_sleep_minutes : Option ℤ
  rem_sleep_minutes : Option ℤ
  sleep_efficiency : Option ℚ
  heart_rate_avg : Option ℤ
  heart_rate_min : Option ℤ
  heart_rate_max : Option ℤ
deriving DecidableEq, Repr

/-- Mutable columns of the `sleep_data` table (key column `date` excluded). -/
structure SleepFields where
  bedtime : Option String
  wake_time : Option String
  sleep_duration_minutes : Option ℤ
  deep_sleep_minutes : Option ℤ
  light_sleep_minutes : Option ℤ
  rem_sleep_minutes : Option ℤ
  sleep_efficiency : Option ℚ
  heart_rate_avg : Option ℤ
  heart_rate_min : Option ℤ
  heart_rate_max : Option ℤ
deriving DecidableEq, Repr

/-- The modelled `sleep_data` table. -/
abbrev SleepStore : Type := Store SleepFields

/-- Body of the per-sample loop of `receive_sleep_data` in `api_server.py`:
date keeps only its first whitespace token when truthy, hour quantities are
scaled by 60 and truncated when truthy, and the remaining fields are set to
the empty string. -/
def parseSleepSample (r : SleepSample) : ParsedSleep :=
  { date := match r.date with
      | some d => if d = "" then "" else pySplitFirst d
      | none => ""
    bedtime := r.inBedStart.getD ""
    wake_time := r.inBedEnd.getD ""
    sleep_duration_minutes := match r.totalSleep with
      | some q => if q = 0 then none else some (pyInt (q * 60))
      | none => none
    deep_sleep_minutes := match r.deep with
      | some q => if q = 0 then none else some (pyInt (q * 60))
      | none => none
    light_sleep_minutes := match r.core with
      | some q => if q = 0 then none else some (pyInt (q * 60))
      | none => none
    rem_sleep_minutes := match r.rem with
      | some q => if q = 0 then none else some (pyInt (q * 60))
      | none => none
    sleep_efficiency := none
    heart_rate_avg := none
    heart_rate_min := none
    heart_rate_max := none }

/-- Record extraction of `receive_sleep_data`: walk `data.metrics[].data[]`
and parse each sample; any missing envelope key yields no records. -/
def extractSleepRecords (p : SleepPayload) : List ParsedSleep :=
  match p with
  | none => []
  | some body =>
    match body.metrics with
    | none => []
    | some metrics =>
      metrics.flatMap fun m =>
        match m.data with
        | none => []
        | some samples => samples.map parseSleepSample

/-- Row values bound by `save_sleep_to_rds` for one parsed record (the
`sleep_data` dict): `or None` on the text fields, `int(x) if x else None`
on the numeric ones. -/
def sleepRowOf (r : ParsedSleep) : SleepFields :=
  { bedtime := truthyStr r.bedtime
    wake_time := truthyStr r.wake_time
    sleep_duration_minutes := truthyIntOpt r.sleep_duration_minutes
    deep_sleep_minutes := truthyIntOpt r.deep_sleep_minutes
    light_sleep_minutes := truthyIntOpt r.light_sleep_minutes
    rem_sleep_minutes := truthyIntOpt r.rem_sleep_minutes
    sleep_efficiency := truthyRatOpt r.sleep_efficiency
    heart_rate_avg := truthyIntOpt r.heart_rate_avg
    heart_rate_min := truthyIntOpt r.heart_rate_min
    heart_rate_max := truthyIntOpt r.heart_rate_max }

/-- Classification of one record in the `save_sleep_to_rds` loop: the insert
of a record whose required `date` key is empty raises in the driver and is
caught by the per-record handler, so the record is skipped; otherwise the
record is upserted under its date. -/
def classifySleepRest (r : ParsedSleep) : RecStep SleepFields :=
  if r.date = "" then .skip else .put r.date (sleepRowOf r)

/-- Model of `save_sleep_to_rds`: empty batches and an unavailable database
save nothing and report 0; otherwise every record is attempted in order with
a per-record handler and the batch is committed at the end. -/
def save_sleep_to_rds (dbUp : Bool) (recs : List ParsedSleep)
    (s : SleepStore) (t : ℕ) : SleepStore × ℕ :=
  if recs = [] then (s, 0)
  else if dbUp then batchLoop classifySleepRest t recs s 0
  else (s, 0)

/-- Structured JSON result of a REST endpoint, together with the processed
count that the endpoint interpolates into its message. -/
structure RestResult where
  status : String
  message : String
deriving DecidableEq, Repr

/-- Model of the `/api/sleep` Flask handler `receive_sleep_data`: extract,
save, and always answer with status `success`; the saved count is reported
inside the message (the model also returns it directly). -/
def receive_sleep_data (dbUp : Bool) (p : SleepPayload) (s : SleepStore)
    (t : ℕ) : RestResult × ℕ × SleepStore :=
  let recs := extractSleepRecords p
  let (s2, n) := save_sleep_to_rds dbUp recs s t
  (⟨"success", "Processed " ++ toString n ++ " sleep records"⟩, n, s2)

/-- Protobuf `SleepRecord` message built by the gateway: proto3 scalar
fields default to the empty string / 0 when unset. -/
structure PbSleepRecord where
  date : String
  bedtime : String
  wake_time : String
  sleep_duration_minutes : ℤ
  deep_sleep_minutes : ℤ
  light_sleep_minutes : ℤ
  rem_sleep_minutes : ℤ
  sleep_efficiency : ℚ
  heart_rate_avg : ℤ
  heart_rate_min : ℤ
  heart_rate_max : ℤ
deriving DecidableEq, Repr

/-- Per-sample record construction in the gateway `ingest_sleep`: unlike the
REST normalizer it scales the hour quantities unconditionally (a missing
quantity defaults to 0). -/
def gatewaySleepRecord (r : SleepSample) : PbSleepRecord :=
  { date := match r.date with
      | some d => if d = "" then "" else pySplitFirst d
      | none => ""
    bedtime := r.inBedStart.getD ""
    wake_time := r.inBedEnd.getD ""
    sleep_duration_minutes := pyInt ((r.totalSleep.getD 0) * 60)
    deep_sleep_minutes := pyInt ((r.deep.getD 0) * 60)
    light_sleep_minutes := pyInt ((r.core.getD 0) * 60)
    rem_sleep_minutes := pyInt ((r.rem.getD 0) * 60)
    sleep_efficiency := 0
    heart_rate_avg := 0
    heart_rate_min := 0
    heart_rate_max := 0 }

/-- Record extraction of the gateway `ingest_sleep`: `data.metrics[]` with
`metric.get("data", [])`. -/
def gatewaySleepRecords (p : SleepPayload) : List PbSleepRecord :=
  match p with
  | none => []
  | some body =>
    match body.metrics with
    | none => []
    | some metrics =>
      metrics.flatMap fun m => (m.data.getD []).map gatewaySleepRecord

/-- Row values bound by `ExportSleep` for one protobuf record: every
nullable field goes through Python `or None` (0 and the empty string become
SQL NULL). -/
def sleepRowOfPb (r : PbSleepRecord) : SleepFields :=
  { bedtime := truthyStr r.bedtime
    wake_time := truthyStr r.wake_time
    sleep_duration_minutes := truthyZ r.sleep_duration_minutes
    deep_sleep_minutes := truthyZ r.deep_sleep_minutes
    light_sleep_minutes := truthyZ r.light_sleep_minutes
    rem_sleep_minutes := truthyZ r.rem_sleep_minutes
    sleep_efficiency := truthyQ r.sleep_efficiency
    heart_rate_avg := truthyZ r.heart_rate_avg
    heart_rate_min := truthyZ r.heart_rate_min
    heart_rate_max := truthyZ r.heart_rate_max }

/-- Classification of one record in the `ExportSleep` loop: there is no
per-record handler, so a record whose required `date` is empty makes the
insert raise out of the whole call; otherwise the record is upserted. -/
def classifySleepGrpc (r : PbSleepRecord) : RecStep SleepFields :=
  if r.date = "" then .raise_ else .put r.date (sleepRowOfPb r)

/-- Structured gRPC `IngestResponse` message (timestamp field omitted; the
model uses no wall clock). -/
structure IngestResponse where
  status : String
  message : String
  processed : ℕ
deriving DecidableEq, Repr

/-- Model of the gRPC `ExportSleep` service method: an unavailable database
yields a structured error response; otherwise all records are inserted with
no per-record handler, so one failing record raises out of the call
(`.error`) with nothing committed. -/
def ExportSleep (dbUp : Bool) (recs : List PbSleepRecord) (s : SleepStore)
    (t : ℕ) : Except Unit (IngestResponse × SleepStore) :=
  if dbUp then
    match batchLoopStrict classifySleepGrpc t recs s 0 with
    | .ok (s2, n) =>
      .ok (⟨"success", "Processed " ++ toString n ++ " sleep records", n⟩, s2)
    | .error _ => .error ()
  else
    .ok (⟨"error", "Database unavailable", 0⟩, s)

/-- Model of the gateway `/api/sleep` route `ingest_sleep`: normalize and
forward to `ExportSleep`. -/
def ingest_sleep (dbUp : Bool) (p : SleepPayload) (s : SleepStore) (t : ℕ) :
    Except Unit (IngestResponse × SleepStore) :=
  ExportSleep dbUp (gatewaySleepRecords p) s t

/-- The committed `sleep_data` table after an `ExportSleep` call: when the
call raises, the batch is never committed, so the table keeps its prior
contents. -/
def exportSleepState (dbUp : Bool) (recs : List PbSleepRecord)
    (s : SleepStore) (t : ℕ) : SleepStore :=
  match ExportSleep dbUp recs s t with
  | .ok (_, s2) => s2
  | .error _ => s

/-! ## Exercise data model and pipeline -/
/-- Raw entry of `data.workouts[]`: `start`, the two name keys, and the
nested `activeEnergyBurned` object.  `activeEnergyBurned = some q` models a
present, truthy quantity object whose `qty` the float coercion reads as `q`;
`none` models an absent key, a falsy object, or an absent `qty`. -/
structure WorkoutJson where
  start : Option String
  workoutName : Option String
  workoutActivityType : Option String
  activeEnergyBurned : Option ℚ
deriving DecidableEq, Repr

/-- Raw sample of the generic exercise-time metrics shape. -/
structure ExerciseSample where
  date : Option String
  qty : Option ℚ
deriving DecidableEq, Repr

/-- One entry of `data.metrics[]` for exercise. -/
structure ExerciseMetric where
  data : Option (List ExerciseSample)
deriving DecidableEq, Repr

/-- The `data` object of an exercise payload: which of the `workouts` and
`metrics` keys are present, and their lists. -/
structure ExerciseDataBody where
  workouts : Option (List WorkoutJson)
  metrics : Option (List ExerciseMetric)
deriving DecidableEq, Repr

/-- A decoded exercise request body. -/
abbrev ExercisePayload : Type := Option ExerciseDataBody

/-- Intermediate dict built by `receive_exercise_data` for each record.
String-valued empties are `none`; `duration_minutes` holds the raw metric
quantity (coerced to int only later, in `save_exercise_to_rds`). -/
structure ParsedExercise where
  timestamp : String
  activity_type : String
  duration_minutes : Option ℚ
  calories_burned : Option ℚ
  distance_km : Option ℚ
  steps : Option ℤ
  heart_rate_avg : Option ℤ
  heart_rate_max : Option ℤ
  active_energy_kcal : Option ℚ
  resting_energy_kcal : Option ℚ
deriving DecidableEq, Repr

/-- Per-workout parsing in `receive_exercise_data`: name falls back from
`workoutName` to `workoutActivityType` to the label `Exercise`; the active
energy quantity feeds both `calories_burned` and `active_energy_kcal`. -/
def parseWorkout (w : WorkoutJson) : ParsedExercise :=
  { timestamp := w.start.getD ""
    activity_type := w.workoutName.getD (w.workoutActivityType.getD "Exercise")
    duration_minutes := none
    calories_burned := w.activeEnergyBurned
    distance_km := none
    steps := none
    heart_rate_avg := none
    heart_rate_max := none
    active_energy_kcal := w.activeEnergyBurned
    resting_energy_kcal := none }

/-- Per-sample parsing of the generic metrics shape in
`receive_exercise_data`: only timestamp, the fixed `Exercise` label and the
raw duration quantity are populated. -/
def parseExerciseSample (r : ExerciseSample) : ParsedExercise :=
  { timestamp := r.date.getD ""
    activity_type := "Exercise"
    duration_minutes := r.qty
    calories_burned := none
    distance_km := none
    steps := none
    heart_rate_avg := none
    heart_rate_max := none
    active_energy_kcal := none
    resting_energy_kcal := none }

/-- Record extraction of `receive_exercise_data` in `api_server.py`: the
`workouts` key is probed first and, via `elif`, the `metrics` shape is only
processed when no `workouts` key is present. -/
def extractExerciseRecords (p : ExercisePayload) : List ParsedExercise :=
  match p with
  | none => []
  | some body =>
    match body.workouts with
    | some ws => ws.map parseWorkout
    | none =>
      match body.metrics with
      | none => []
      | some metrics =>
        metrics.flatMap fun m =>
          match m.data with
          | none => []
          | some samples => samples.map parseExerciseSample

/-- Mutable columns of the `exercise_data` table (key column `timestamp`
excluded). -/
structure ExerciseFields where
  activity_type : Option String
  duration_minutes : Option ℤ
  calories_burned : Option ℚ
  distance_km : Option ℚ
  steps : Option ℤ
  heart_rate_avg : Option ℤ
  heart_rate_max : Option ℤ
  active_energy_kcal : Option ℚ
  resting_energy_kcal : Option ℚ
deriving DecidableEq, Repr

/-- The modelled `exercise_data` table. -/
abbrev ExerciseStore : Type := Store ExerciseFields

/-- Row values bound by `save_exercise_to_rds`: `activity_type` is stored
as-is (the parsed dict always carries a string), the numeric fields go
through `x if x else None` coercions with truncation for the int columns. -/
def exerciseRowOf (r : ParsedExercise) : ExerciseFields :=
  { activity_type := some r.activity_type
    duration_minutes := truthyIntOfRatOpt r.duration_minutes
    calories_burned := truthyRatOpt r.calories_burned
    distance_km := truthyRatOpt r.distance_km
    steps := truthyIntOpt r.steps
    heart_rate_avg := truthyIntOpt r.heart_rate_avg
    heart_rate_max := truthyIntOpt r.heart_rate_max
    active_energy_kcal := truthyRatOpt r.active_energy_kcal
    resting_energy_kcal := truthyRatOpt r.resting_energy_kcal }

/-- Classification of one record in the `save_exercise_to_rds` loop: a
record whose required `timestamp` is empty makes the insert raise, which the
per-record handler turns into a skip; otherwise it is upserted. -/
def classifyExerciseRest (r : ParsedExercise) : RecStep ExerciseFields :=
  if r.timestamp = "" then .skip else .put r.timestamp (exerciseRowOf r)

/-- Model of `save_exercise_to_rds`. -/
def save_exercise_to_rds (dbUp : Bool) (recs : List ParsedExercise)
    (s : ExerciseStore) (t : ℕ) : ExerciseStore × ℕ :=
  if recs = [] then (s, 0)
  else if dbUp then batchLoop classifyExerciseRest t recs s 0
  else (s, 0)

/-- Model of the `/api/exercise` Flask handler `receive_exercise_data`. -/
def receive_exercise_data (dbUp : Bool) (p : ExercisePayload)
    (s : ExerciseStore) (t : ℕ) : RestResult × ℕ × ExerciseStore :=
  let recs := extractExerciseRecords p
  let (s2, n) := save_exercise_to_rds dbUp recs s t
  (⟨"success", "Processed " ++ toString n ++ " exercise records"⟩, n, s2)

/-- Protobuf `ExerciseRecord` message built by the gateway (proto3 defaults
for unset fields). -/
structure PbExerciseRecord where
  timestamp : String
  activity_type : String
  duration_minutes : ℤ
  calories_burned : ℚ
  distance_km : ℚ
  steps : ℤ
  heart_rate_avg : ℤ
  heart_rate_max : ℤ
  active_energy_kcal : ℚ
  resting_energy_kcal : ℚ
deriving DecidableEq, Repr

/-- Workout-shape record construction in the gateway `ingest_exercise`:
only `workoutName` is consulted for the label, and a missing active energy
defaults to calories 0. -/
def gatewayWorkoutRecord (w : WorkoutJson) : PbExerciseRecord :=
  { timestamp := w.start.getD ""
    activity_type := w.workoutName.getD "Exercise"
    duration_minutes := 0
    calories_burned := w.activeEnergyBurned.getD 0
    distance_km := 0
    steps := 0
    heart_rate_avg := 0
    heart_rate_max := 0
    active_energy_kcal := 0
    resting_energy_kcal := 0 }

/-- Metrics-shape record construction in the gateway `ingest_exercise`. -/
def gatewayMetricRecord (r : ExerciseSample) : PbExerciseRecord :=
  { timestamp := r.date.getD ""
    activity_type := "Exercise"
    duration_minutes := pyInt (r.qty.getD 0)
    calories_burned := 0
    distance_km := 0
    steps := 0
    heart_rate_avg := 0
    heart_rate_max := 0
    active_energy_kcal := 0
    resting_energy_kcal := 0 }

/-- Record extraction of the gateway `ingest_exercise` in
`grpc/gateway.py`: the `workouts` and `metrics` branches are two
independent `if` statements, so a payload carrying both keys contributes
records from both shapes, workouts first. -/
def gatewayExerciseRecords (p : ExercisePayload) : List PbExerciseRecord :=
  match p with
  | none => []
  | some body =>
    (match body.workouts with
     | some ws => ws.map gatewayWorkoutRecord
     | none => []) ++
    (match body.metrics with
     | none => []
     | some metrics =>
       metrics.flatMap fun m => (m.data.getD []).map gatewayMetricRecord)

/-- Row values bound by `ExportExercise` for one protobuf record. -/
def exerciseRowOfPb (r : PbExerciseRecord) : ExerciseFields :=
  { activity_type := some r.activity_type
    duration_minutes := truthyZ r.duration_minutes
    calories_burned := truthyQ r.calories_burned
    distance_km := truthyQ r.distance_km
    steps := truthyZ r.steps
    heart_rate_avg := truthyZ r.heart_rate_avg
    heart_rate_max := truthyZ r.heart_rate_max
    active_energy_kcal := truthyQ r.active_energy_kcal
    resting_energy_kcal := truthyQ r.resting_energy_kcal }

/-- Classification of one record in the `ExportExercise` loop (no
per-record handler). -/
def classifyExerciseGrpc (r : PbExerciseRecord) : RecStep ExerciseFields :=
  if r.timestamp = "" then .raise_ else .put r.timestamp (exerciseRowOfPb r)

/-- Model of the gRPC `ExportExercise` service method. -/
def ExportExercise (dbUp : Bool) (recs : List PbExerciseRecord)
    (s : ExerciseStore) (t : ℕ) : Except Unit (IngestResponse × ExerciseStore) :=
  if dbUp then
    match batchLoopStrict classifyExerciseGrpc t recs s 0 with
    | .ok (s2, n) =>
      .ok (⟨"success", "Processed " ++ toString n ++ " exercise records", n⟩, s2)
    | .error _ => .error ()
  else
    .ok (⟨"error", "DB down", 0⟩, s)

/-- Model of the gateway `/api/exercise` route `ingest_exercise`: normalize
both shapes and forward the combined batch to `ExportExercise`. -/
def ingest_exercise (dbUp : Bool) (p : ExercisePayload) (s : ExerciseStore)
    (t : ℕ) : Except Unit (IngestResponse × ExerciseStore) :=
  ExportExercise dbUp (gatewayExerciseRecords p) s t

/-! ## Glucose data model and pipeline -/
/-- Raw `qty` value of a glucose sample, classified by what Python
`float()` does to it: `num q` is a JSON number or numeric string that
`float` reads as `q`; `bad s` is a populated non-numeric string on which
`float` raises. -/
inductive GlucoseQty where
  | num (q : ℚ)
  | bad (s : String)
deriving DecidableEq, Repr

/-- Python truthiness of a raw `qty`: the number 0 is falsy, a string is
truthy exactly when non-empty. -/
def qtyTruthy : GlucoseQty → Bool
  | .num q => q ≠ 0
  | .bad s => s ≠ ""

/-- Raw glucose sample inside `data.metrics[].data[]`.  The sample may
carry a `units` key; no normalizer ever reads it. -/
structure GlucoseSample where
  date : Option String
  qty : Option GlucoseQty
  source : Option String
  units : Option String
deriving DecidableEq, Repr

/-- One entry of `data.metrics[]` for glucose. -/
structure GlucoseMetric where
  data : Option (List GlucoseSample)
deriving DecidableEq, Repr

/-- The `data` object of a glucose payload. -/
structure GlucoseDataBody where
  metrics : Option (List GlucoseMetric)
deriving DecidableEq, Repr

/-- A decoded glucose request body. -/
abbrev GlucosePayload : Type := Option GlucoseDataBody

/-- Intermediate dict built by `receive_glucose_data` for each sample: the
raw quantity is carried through unchanged, the unit is the constant
`mg/dL`. -/
structure ParsedGlucose where
  timestamp : String
  value : Option GlucoseQty
  unit : String
  source : String
deriving DecidableEq, Repr

/-- Record extraction of `receive_glucose_data` in `api_server.py`. -/
def extractGlucoseRecords (p : GlucosePayload) : List ParsedGlucose :=
  match p with
  | none => []
  | some body =>
    match body.metrics with
    | none => []
    | some metrics =>
      metrics.flatMap fun m =>
        match m.data with
        | none => []
        | some samples =>
          samples.map fun r =>
            { timestamp := r.date.getD ""
              value := r.qty
              unit := "mg/dL"
              source := r.source.getD "" }

/-- Mutable columns of the `blood_glucose` table (key column `timestamp`
excluded). -/
structure GlucoseFields where
  value : ℚ
  unit : String
  source : Option String
deriving DecidableEq, Repr

/-- The modelled `blood_glucose` table. -/
abbrev GlucoseStore : Type := Store GlucoseFields

/-- Classification of one record in the `save_glucose_to_rds` loop,
mirroring its validation chain: an empty timestamp or falsy value is
skipped, a value `float()` cannot parse is skipped, a non-positive parsed
value is skipped, and only then is the record upserted with
`unit or mg/dL` and `source or NULL`. -/
def classifyGlucoseRest (r : ParsedGlucose) : RecStep GlucoseFields :=
  if r.timestamp = "" then .skip
  else
    match r.value with
    | none => .skip
    | some q =>
      if qtyTruthy q then
        match q with
        | .bad _ => .skip
        | .num x =>
          if x ≤ 0 then .skip
          else .put r.timestamp
            ⟨x, if r.unit = "" then "mg/dL" else r.unit, truthyStr r.source⟩
      else .skip

/-- Model of `save_glucose_to_rds`. -/
def save_glucose_to_rds (dbUp : Bool) (recs : List ParsedGlucose)
    (s : GlucoseStore) (t : ℕ) : GlucoseStore × ℕ :=
  if recs = [] then (s, 0)
  else if dbUp then batchLoop classifyGlucoseRest t recs s 0
  else (s, 0)

/-- Model of the `/api/glucose` Flask handler `receive_glucose_data`: unlike
the other two REST endpoints it answers `warning` when no record was saved
and `success` only for a positive count. -/
def receive_glucose_data (dbUp : Bool) (p : GlucosePayload)
    (s : GlucoseStore) (t : ℕ) : RestResult × ℕ × GlucoseStore :=
  let recs := extractGlucoseRecords p
  let (s2, n) := save_glucose_to_rds dbUp recs s t
  if n > 0 then
    (⟨"success", "Processed " ++ toString n ++ " glucose records"⟩, n, s2)
  else
    (⟨"warning", "No valid glucose records to save"⟩, n, s2)

/-- Protobuf `GlucoseRecord` message (proto3 defaults). -/
structure PbGlucoseRecord where
  timestamp : String
  value : ℚ
  unit : String
  source : String
deriving DecidableEq, Repr

/-- Record construction of the gateway `ingest_glucose`: a sample whose
`qty` makes `float()` raise is dropped by the per-sample handler; a missing
`qty` defaults to value 0; the unit is always the constant `mg/dL`. -/
def gatewayGlucoseRecords (p : GlucosePayload) : List PbGlucoseRecord :=
  match p with
  | none => []
  | some body =>
    match body.metrics with
    | none => []
    | some metrics =>
      metrics.flatMap fun m =>
        (m.data.getD []).filterMap fun r =>
          match r.qty with
          | some (.bad _) => none
          | some (.num q) =>
            some ⟨r.date.getD "", q, "mg/dL", r.source.getD ""⟩
          | none => some ⟨r.date.getD "", 0, "mg/dL", r.source.getD ""⟩

/-- Classification of one record in the `ExportGlucose` loop: non-positive
values are skipped by an explicit guard; an empty timestamp makes the
insert raise out of the call (no per-record handler). -/
def classifyGlucoseGrpc (r : PbGlucoseRecord) : RecStep GlucoseFields :=
  if r.value ≤ 0 then .skip
  else if r.timestamp = "" then .raise_
  else .put r.timestamp
    ⟨r.value, if r.unit = "" then "mg/dL" else r.unit, truthyStr r.source⟩

/-- Model of the gRPC `ExportGlucose` service method. -/
def ExportGlucose (dbUp : Bool) (recs : List PbGlucoseRecord)
    (s : GlucoseStore) (t : ℕ) : Except Unit (IngestResponse × GlucoseStore) :=
  if dbUp then
    match batchLoopStrict classifyGlucoseGrpc t recs s 0 with
    | .ok (s2, n) =>
      .ok (⟨"success", "Processed " ++ toString n ++ " glucose records", n⟩, s2)
    | .error _ => .error ()
  else
    .ok (⟨"error", "DB down", 0⟩, s)

/-- Model of the gateway `/api/glucose` route `ingest_glucose`. -/
def ingest_glucose (dbUp : Bool) (p : GlucosePayload) (s : GlucoseStore)
    (t : ℕ) : Except Unit (IngestResponse × GlucoseStore) :=
  ExportGlucose dbUp (gatewayGlucoseRecords p) s t

/-! ## Table schemas, from `create_tables` -/
/-- Column names of the `sleep_data` table, in declaration order of its
CREATE TABLE statement (identical in `api_server.py` and
`grpc_server.py`). -/
def sleep_data_columns : List String :=
  ["id", "date", "bedtime", "wake_time", "sleep_duration_minutes",
   "deep_sleep_minutes", "light_sleep_minutes", "rem_sleep_minutes",
   "sleep_efficiency", "heart_rate_avg", "heart_rate_min", "heart_rate_max",
   "created_at", "updated_at"]

/-- Column names of the `exercise_data` table. -/
def exercise_data_columns : List String :=
  ["id", "timestamp", "activity_type", "duration_minutes", "calories_burned",
   "distance_km", "steps", "heart_rate_avg", "heart_rate_max",
   "active_energy_kcal", "resting_energy_kcal", "created_at"]

/-- Column names of the `blood_glucose` table. -/
def blood_glucose_columns : List String :=
  ["id", "timestamp", "value", "unit", "source", "created_at"]

/-! ## Concrete inputs used by individual claims -/
/-- Exercise payload carrying both shapes: one workout (start
2024-01-01 10:00:00, name Running, active energy 250) under `workouts`, and
one exercise-time sample (2024-01-02 11:00:00, qty 30) under `metrics`. -/
def dualShapeExercisePayload : ExercisePayload :=
  some ⟨some [⟨some "2024-01-01 10:00:00", some "Running", none, some 250⟩],
        some [⟨some [⟨some "2024-01-02 11:00:00", some 30⟩]⟩]⟩

/-- The sleep payload of the specification scenario: one sample dated
`2024-01-15 00:00:00` with `totalSleep` 7.5 hours and `deep` 1.5 hours. -/
def c7SleepPayload : SleepPayload :=
  some ⟨some [⟨some [⟨some "2024-01-15 00:00:00", some "2024-01-14T23:00:00",
    some "2024-01-15T07:00:00", some 7.5, some 1.5, none, none⟩]⟩]⟩

/-- Glucose payload with one sample of qty 0 and one of qty 110. -/
def c2GlucosePayload : GlucosePayload :=
  some ⟨some [⟨some [⟨some "2024-01-03 08:00:00", some (.num 0), none, none⟩,
    ⟨some "2024-01-03 09:00:00", some (.num 110), none, none⟩]⟩]⟩

/-- Glucose payload whose single sample has the invalid quantity −5. -/
def c9GlucosePayload : GlucosePayload :=
  some ⟨some [⟨some [⟨some "2024-01-03 08:00:00", some (.num (-5)), none, none⟩]⟩]⟩

/-- Sleep payload with one valid sample and nothing else, used to probe the
REST endpoint when the database is down. -/
def c6SleepPayload : SleepPayload :=
  some ⟨some [⟨some [⟨some "2024-01-15 00:00:00", none, none, none, none,
    none, none⟩]⟩]⟩

/-- A fixed parsed sleep record for re-ingestion witnesses. -/
def c8SleepRec : ParsedSleep :=
  ⟨"2024-03-01", "2024-02-29T23:10:00", "", some 400, none, none, none,
    none, none, none, none⟩

/-- A concrete positive parsed glucose batch, for witnesses. -/
def c2WitnessParsed : List ParsedGlucose :=
  [⟨"2024-01-05 08:00:00", some (.num 110), "mg/dL", ""⟩]

/-- A concrete positive protobuf glucose batch, for witnesses. -/
def c2WitnessPb : List PbGlucoseRecord :=
  [⟨"2024-01-05 08:00:00", 110, "", ""⟩]

/-- Concrete records for the C3 witness: B overwrites A, with B null where
A was populated. -/
def c3SleepA : ParsedSleep :=
  ⟨"2024-03-05", "2024-03-04T23:00:00", "2024-03-05T07:30:00", some 400,
    some 60, some 200, some 90, none, none, none, none⟩

/-- Second sleep record of the C3 witness (same date, different and partly
null fields). -/
def c3SleepB : ParsedSleep :=
  ⟨"2024-03-05", "", "2024-03-05T08:00:00", some 410, none, none, none,
    none, none, none, none⟩

/-- First glucose record of the C3 witness. -/
def c3GlucoseA : PbGlucoseRecord := ⟨"2024-03-05 08:00:00", 100, "mg/dL", "sensor"⟩

/-- Second glucose record of the C3 witness (same timestamp, empty unit and
source). -/
def c3GlucoseB : PbGlucoseRecord := ⟨"2024-03-05 08:00:00", 120, "", ""⟩

/-- Concrete REST sleep batch for the C4 witness: three records, exactly one
with an empty date. -/
def c4SleepBatch : List ParsedSleep :=
  [⟨"2024-02-01", "", "", some 400, none, none, none, none, none, none, none⟩,
   ⟨"", "", "", some 300, none, none, none, none, none, none, none⟩,
   ⟨"2024-02-02", "", "", some 350, none, none, none, none, none, none, none⟩]

/-- Concrete gRPC sleep batch for the C4 witness, containing an empty date. -/
def c4PbBatch : List PbSleepRecord :=
  [⟨"2024-02-03", "", "", 420, 0, 0, 0, 0, 0, 0, 0⟩,
   ⟨"", "", "", 300, 0, 0, 0, 0, 0, 0, 0⟩]

/-- Concrete exercise batch for the C5 witness (two records, one repeated
key inside the batch). -/
def c5ExerciseBatch : List ParsedExercise :=
  [⟨"2024-04-01 09:00:00", "Running", none, some 250, none, none, none,
     none, some 250, none⟩,
   ⟨"2024-04-01 09:00:00", "Cycling", none, some 300, none, none, none,
     none, some 300, none⟩,
   ⟨"2024-04-02 10:00:00", "Exercise", some 30, none, none, none, none,
     none, none, none⟩]

/-- Concrete gRPC sleep batch for the C5 witness. -/
def c5PbSleepBatch : List PbSleepRecord :=
  [⟨"2024-04-01", "", "", 420, 0, 0, 0, 0, 0, 0, 0⟩,
   ⟨"2024-04-02", "", "", 400, 90, 0, 0, 0, 0, 0, 0⟩]

/-- Single-sample glucose payload with an explicit (ignored) `units` key,
for the C10 witness. -/
def c10GlucosePayload : GlucosePayload :=
  some ⟨some [⟨some [⟨some "2024-01-08 07:45:00", some (.num 105),
    some "Dexcom", some "mmol/L"⟩]⟩]⟩

/-! ## Theorems -/

theorem storeFields_upsert (k k' : String) (f : γ) (t : ℕ) (s : Store γ) :
    storeFields k' (storeUpsert k f t s) =
      if k = k' then some f else storeFields k' s := by
  induction s with
  | nil =>
    by_cases h : k = k' <;> simp [storeUpsert, storeFind, storeFields, h]
  | cons p rest ih =>
    obtain ⟨k₀, r₀⟩ := p
    by_cases h0 : k₀ = k
    · subst h0
      by_cases h : k₀ = k' <;>
        simp [storeUpsert, storeFind, storeFields, h]
    · by_cases h : k₀ = k'
      · subst h
        have hkk : ¬ k = k₀ := fun hh => h0 hh.symm
        simp [storeUpsert, storeFind, storeFields, h0, hkk]
      · simp [storeUpsert, storeFind, storeFields, h0, h] at ih ⊢
        exact ih

theorem storeFind_upsert_self (k : String) (f : γ) (t : ℕ) (s : Store γ) :
    storeFind k (storeUpsert k f t s) =
      some ⟨f, ((storeFind k s).map StoreRow.createdAt).getD t, t⟩ := by
  induction s with
  | nil => simp [storeUpsert, storeFind]
  | cons p rest ih =>
    obtain ⟨k₀, r₀⟩ := p
    by_cases h0 : k₀ = k
    · subst h0
      simp [storeUpsert, storeFind]
    · simp [storeUpsert, storeFind, h0, ih]

theorem storeKeys_upsert (k : String) (f : γ) (t : ℕ) (s : Store γ) :
    storeKeys (storeUpsert k f t s) =
      if k ∈ storeKeys s then storeKeys s else storeKeys s ++ [k] := by
  induction s with
  | nil => simp [storeUpsert, storeKeys]
  | cons p rest ih =>
    obtain ⟨k₀, r₀⟩ := p
    by_cases h0 : k₀ = k
    · subst h0
      simp [storeUpsert, storeKeys]
    · have hne : ¬ k = k₀ := fun hh => h0 hh.symm
      by_cases hmem : k ∈ storeKeys rest
      · simp only [storeKeys, List.map_cons] at ih ⊢
        simp only [storeKeys] at hmem
        simp [storeUpsert, h0, hne, hmem, ih]
      · simp only [storeKeys, List.map_cons] at ih ⊢
        simp only [storeKeys] at hmem
        simp [storeUpsert, h0, hne, hmem, ih]

theorem nodup_storeKeys_upsert (k : String) (f : γ) (t : ℕ) (s : Store γ)
    (h : (storeKeys s).Nodup) : (storeKeys (storeUpsert k f t s)).Nodup := by
  rw [storeKeys_upsert]
  by_cases hmem : k ∈ storeKeys s
  · simpa [hmem]
  · simp only [hmem, if_false]
    refine List.Nodup.append h (List.nodup_singleton k) ?_
    intro a ha hb
    simp at hb
    subst hb
    exact hmem ha

theorem storeFields_batchLoop (classify : β → RecStep γ) (t : ℕ)
    (recs : List β) (s : Store γ) (n : ℕ) (k : String) :
    storeFields k (batchLoop classify t recs s n).1 =
      match lastPutValue classify k recs with
      | some v => some v
      | none => storeFields k s := by
  induction recs generalizing s n with
  | nil => simp [batchLoop, lastPutValue]
  | cons r rs ih =>
    cases hc : classify r with
    | skip =>
      simp only [batchLoop, hc, lastPutValue, ih]
      cases lastPutValue classify k rs <;> simp [hc]
    | put k' f =>
      simp only [batchLoop, hc, lastPutValue, ih]
      cases lastPutValue classify k rs with
      | some v => simp
      | none =>
        simp only [hc]
        rw [storeFields_upsert]
        by_cases h : k' = k <;> simp [h]
    | raise_ =>
      simp only [batchLoop, hc, lastPutValue, ih]
      cases lastPutValue classify k rs <;> simp [hc]

theorem count_batchLoop (classify : β → RecStep γ) (t : ℕ)
    (recs : List β) (s : Store γ) (n : ℕ) :
    (batchLoop classify t recs s n).2 = n + recs.countP (isPut classify) := by
  induction recs generalizing s n with
  | nil => simp [batchLoop]
  | cons r rs ih =>
    cases hc : classify r with
    | skip => simp [batchLoop, hc, ih, List.countP_cons, isPut]
    | put k' f =>
      simp [batchLoop, hc, ih, List.countP_cons, isPut]
      omega
    | raise_ => simp [batchLoop, hc, ih, List.countP_cons, isPut]

theorem nodup_batchLoop (classify : β → RecStep γ) (t : ℕ)
    (recs : List β) (s : Store γ) (n : ℕ)
    (h : (storeKeys s).Nodup) :
    (storeKeys (batchLoop classify t recs s n).1).Nodup := by
  induction recs generalizing s n with
  | nil => simpa [batchLoop]
  | cons r rs ih =>
    cases hc : classify r with
    | skip => simp only [batchLoop, hc]; exact ih _ _ h
    | put k' f =>
      simp only [batchLoop, hc]
      exact ih _ _ (nodup_storeKeys_upsert _ _ _ _ h)
    | raise_ => simp only [batchLoop, hc]; exact ih _ _ h

theorem mem_storeKeys_of_storeFields (k : String) (s : Store γ)
    (h : (storeFields k s).isSome) : k ∈ storeKeys s := by
  induction s with
  | nil => simp [storeFields, storeFind] at h
  | cons p rest ih =>
    obtain ⟨k₀, r₀⟩ := p
    by_cases h0 : k₀ = k
    · simp [storeKeys, h0]
    · simp only [storeFields, storeFind, h0, if_false] at h
      simp only [storeKeys, List.map_cons, List.mem_cons]
      exact Or.inr (ih h)

theorem lastPutValue_isSome_of_mem (classify : β → RecStep γ) (recs : List β)
    (r : β) (k : String) (f : γ) (hmem : r ∈ recs) (hc : classify r = .put k f) :
    (lastPutValue classify k recs).isSome := by
  induction recs with
  | nil => simp at hmem
  | cons r' rs ih =>
    rcases List.mem_cons.mp hmem with h | h
    · subst h
      simp only [lastPutValue]
      cases lastPutValue classify k rs <;> simp [hc]
    · simp only [lastPutValue]
      cases hv : lastPutValue classify k rs with
      | some v => simp
      | none =>
        have := ih h
        rw [hv] at this
        simp at this

theorem batchLoopStrict_error_of_raise (classify : β → RecStep γ) (t : ℕ)
    (recs : List β) (s : Store γ) (n : ℕ)
    (h : ∃ r ∈ recs, classify r = .raise_) :
    batchLoopStrict classify t recs s n = .error () := by
  induction recs generalizing s n with
  | nil => simp at h
  | cons r rs ih =>
    obtain ⟨r', hmem, hr'⟩ := h
    rcases List.mem_cons.mp hmem with hh | hh
    · subst hh
      simp [batchLoopStrict, hr']
    · cases hc : classify r with
      | skip => simp only [batchLoopStrict, hc]; exact ih _ _ ⟨r', hh, hr'⟩
      | put k' f => simp only [batchLoopStrict, hc]; exact ih _ _ ⟨r', hh, hr'⟩
      | raise_ => simp [batchLoopStrict, hc]

theorem batchLoopStrict_ok_of_no_raise (classify : β → RecStep γ) (t : ℕ)
    (recs : List β) (s : Store γ) (n : ℕ)
    (h : ∀ r ∈ recs, classify r ≠ .raise_) :
    batchLoopStrict classify t recs s n = .ok (batchLoop classify t recs s n) := by
  induction recs generalizing s n with
  | nil => simp [batchLoopStrict, batchLoop]
  | cons r rs ih =>
    cases hc : classify r with
    | skip =>
      simp only [batchLoopStrict, batchLoop, hc]
      exact ih _ _ fun x hx => h x (List.mem_cons_of_mem _ hx)
    | put k' f =>
      simp only [batchLoopStrict, batchLoop, hc]
      exact ih _ _ fun x hx => h x (List.mem_cons_of_mem _ hx)
    | raise_ => exact absurd hc (h r (List.mem_cons_self _ _))

theorem batchLoop_idem (classify : β → RecStep γ) (t₁ t₂ : ℕ)
    (recs : List β) (s : Store γ) (k : String) :
    storeFields k (batchLoop classify t₂ recs (batchLoop classify t₁ recs s 0).1 0).1 =
      storeFields k (batchLoop classify t₁ recs s 0).1 := by
  rw [storeFields_batchLoop, storeFields_batchLoop]
  cases lastPutValue classify k recs <;> simp

/-! ## Shared helper lemmas -/
theorem lastPutValue_eq_some (classify : β → RecStep γ) (k : String)
    (recs : List β) (v : γ) (h : lastPutValue classify k recs = some v) :
    ∃ r ∈ recs, classify r = .put k v := by
  induction recs with
  | nil => simp [lastPutValue] at h
  | cons r rs ih =>
    simp only [lastPutValue] at h
    cases hv : lastPutValue classify k rs with
    | some w =>
      rw [hv] at h
      obtain ⟨r', hr', hc⟩ := ih (hv.trans (by simpa using h))
      exact ⟨r', List.mem_cons_of_mem _ hr', hc⟩
    | none =>
      rw [hv] at h
      cases hc : classify r with
      | skip => simp [hc] at h
      | raise_ => simp [hc] at h
      | put k' f =>
        simp only [hc] at h
        by_cases hk : k' = k
        · subst hk
          simp at h
          subst h
          exact ⟨r, List.mem_cons_self _ _, hc⟩
        · simp [hk] at h

theorem storeFields_batchLoop_preserve (classify : β → RecStep γ)
    (P : γ → Prop) (t : ℕ) (recs : List β) (s : Store γ) (n : ℕ)
    (hs : ∀ k f, storeFields k s = some f → P f)
    (hput : ∀ r ∈ recs, ∀ k f, classify r = .put k f → P f) :
    ∀ k f, storeFields k (batchLoop classify t recs s n).1 = some f → P f := by
  intro k f hf
  rw [storeFields_batchLoop] at hf
  cases hv : lastPutValue classify k recs with
  | some v =>
    simp only [hv] at hf
    obtain ⟨r, hr, hc⟩ := lastPutValue_eq_some classify k recs v hv
    obtain rfl : v = f := Option.some.inj hf
    exact hput r hr _ _ hc
  | none =>
    simp only [hv] at hf
    exact hs k f hf

theorem batchLoopStrict_ok (classify : β → RecStep γ) (t : ℕ)
    (recs : List β) (s : Store γ) (n : ℕ) (out : Store γ × ℕ)
    (h : batchLoopStrict classify t recs s n = .ok out) :
    (∀ r ∈ recs, classify r ≠ .raise_) ∧
      out = batchLoop classify t recs s n := by
  have hnr : ∀ r ∈ recs, classify r ≠ .raise_ := by
    intro r hr hc
    rw [batchLoopStrict_error_of_raise classify t recs s n ⟨r, hr, hc⟩] at h
    exact Except.noConfusion h
  refine ⟨hnr, ?_⟩
  rw [batchLoopStrict_ok_of_no_raise classify t recs s n hnr] at h
  exact (Except.ok.inj h).symm

theorem save_sleep_eq_batchLoop (recs : List ParsedSleep) (s : SleepStore)
    (t : ℕ) :
    save_sleep_to_rds true recs s t = batchLoop classifySleepRest t recs s 0 := by
  cases recs <;> rfl

theorem save_exercise_eq_batchLoop (recs : List ParsedExercise)
    (s : ExerciseStore) (t : ℕ) :
    save_exercise_to_rds true recs s t =
      batchLoop classifyExerciseRest t recs s 0 := by
  cases recs <;> rfl

theorem save_glucose_eq_batchLoop (recs : List ParsedGlucose)
    (s : GlucoseStore) (t : ℕ) :
    save_glucose_to_rds true recs s t =
      batchLoop classifyGlucoseRest t recs s 0 := by
  cases recs <;> rfl

theorem save_down_eq (recs : List ParsedSleep) (s : SleepStore) (t : ℕ) :
    save_sleep_to_rds false recs s t = (s, 0) := by
  cases recs <;> rfl

theorem save_exercise_down_eq (recs : List ParsedExercise)
    (s : ExerciseStore) (t : ℕ) :
    save_exercise_to_rds false recs s t = (s, 0) := by
  cases recs <;> rfl

theorem save_glucose_down_eq (recs : List ParsedGlucose) (s : GlucoseStore)
    (t : ℕ) :
    save_glucose_to_rds false recs s t = (s, 0) := by
  cases recs <;> rfl

/-- C1: on an exercise payload containing both a `workouts` and a `metrics`
key, the REST normalizer `receive_exercise_data` (an `if/elif`) produces
only the workout-derived record, but the gateway `ingest_exercise` (two
independent `if`s) forwards records from both shapes, and the gRPC backend
stores the metrics-derived exercise record of that call (processed = 2 and
the metrics timestamp is stored with its 30-minute duration). -/
theorem C1_gateway_stores_metrics_derived_record :
    (extractExerciseRecords dualShapeExercisePayload).map ParsedExercise.timestamp
        = ["2024-01-01 10:00:00"]
    ∧ (gatewayExerciseRecords dualShapeExercisePayload).map PbExerciseRecord.timestamp
        = ["2024-01-01 10:00:00", "2024-01-02 11:00:00"]
    ∧ (ingest_exercise true dualShapeExercisePayload [] 7).toOption.map
        (fun out => (out.1.processed,
          storeFields "2024-01-02 11:00:00" out.2))
      = some (2, some ⟨some "Exercise", some 30, none, none, none, none,
          none, none, none⟩) := by
  refine ⟨by decide, by decide, ?_⟩
  decide

/-- C6 counterexample: with the database unavailable, the REST sleep call
completes with status `success` and 0 processed, not status `error` as
claimed. -/
theorem C6_rest_db_down_reports_success :
    (receive_sleep_data false c6SleepPayload [] 0).1.status = "success"
    ∧ (receive_sleep_data false c6SleepPayload [] 0).2.1 = 0 := by
  exact ⟨by decide, by decide⟩

/-- C6 amended: on store unavailability every call still returns a
structured result and never raises; the gRPC service methods report status
`error` with processed 0 and an unchanged table, while the REST endpoints
report 0 processed with status `success` (sleep, exercise) or `warning`
(glucose), also leaving the table unchanged. -/
theorem C6_store_unavailable_structured_result
    (precs : List PbSleepRecord) (erecs : List PbExerciseRecord)
    (grecs : List PbGlucoseRecord)
    (s₁ : SleepStore) (s₂ : ExerciseStore) (s₃ : GlucoseStore) (t : ℕ)
    (sp : SleepPayload) (ep : ExercisePayload) (gp : GlucosePayload) :
    ExportSleep false precs s₁ t = .ok (⟨"error", "Database unavailable", 0⟩, s₁)
    ∧ ExportExercise false erecs s₂ t = .ok (⟨"error", "DB down", 0⟩, s₂)
    ∧ ExportGlucose false grecs s₃ t = .ok (⟨"error", "DB down", 0⟩, s₃)
    ∧ (receive_sleep_data false sp s₁ t).1.status = "success"
    ∧ (receive_sleep_data false sp s₁ t).2 = (0, s₁)
    ∧ (receive_exercise_data false ep s₂ t).1.status = "success"
    ∧ (receive_exercise_data false ep s₂ t).2 = (0, s₂)
    ∧ (receive_glucose_data false gp s₃ t).1.status = "warning"
    ∧ (receive_glucose_data false gp s₃ t).2 = (0, s₃) := by
  refine ⟨rfl, rfl, rfl, ?_, ?_, ?_, ?_, ?_, ?_⟩ <;>
    simp [receive_sleep_data, receive_exercise_data, receive_glucose_data,
      save_down_eq, save_exercise_down_eq, save_glucose_down_eq]

theorem c7_extract_eval :
    extractSleepRecords c7SleepPayload =
      [⟨"2024-01-15", "2024-01-14T23:00:00", "2024-01-15T07:00:00",
        some 450, some 90, none, none, none, none, none, none⟩] := by
  have h75 : pyInt (7.5 * 60) = 450 := by norm_num [pyInt]
  have h15 : pyInt (1.5 * 60) = 90 := by norm_num [pyInt]
  have hne : (7.5 : ℚ) ≠ 0 := by norm_num
  have hne2 : (1.5 : ℚ) ≠ 0 := by norm_num
  simp only [extractSleepRecords, c7SleepPayload, parseSleepSample,
    List.flatMap_cons, List.flatMap_nil, List.map_cons, List.map_nil,
    List.append_nil, h75, h15, hne, hne2, if_false, if_neg]
  decide

theorem c7_gateway_eval :
    gatewaySleepRecords c7SleepPayload =
      [⟨"2024-01-15", "2024-01-14T23:00:00", "2024-01-15T07:00:00",
        450, 90, 0, 0, 0, 0, 0, 0⟩] := by
  have h75 : pyInt (7.5 * 60) = 450 := by norm_num [pyInt]
  have h15 : pyInt (1.5 * 60) = 90 := by norm_num [pyInt]
  have h0 : pyInt (0 * 60) = 0 := by norm_num [pyInt]
  simp only [gatewaySleepRecords, c7SleepPayload, gatewaySleepRecord,
    List.flatMap_cons, List.flatMap_nil, List.map_cons, List.map_nil,
    List.append_nil, Option.getD_some, Option.getD_none, h75, h15, h0]
  decide

/-- C7: the specification scenario payload yields exactly one stored
SleepRecord under date `2024-01-15` with 450 sleep minutes and 90 deep
minutes and a processed count of 1, both through the REST pipeline and
through the gateway plus gRPC pipeline. -/
theorem C7_sleep_scenario :
    (receive_sleep_data true c7SleepPayload [] 3).2.1 = 1
    ∧ (receive_sleep_data true c7SleepPayload [] 3).2.2 =
        [("2024-01-15", ⟨⟨some "2024-01-14T23:00:00", some "2024-01-15T07:00:00",
          some 450, some 90, none, none, none, none, none, none⟩, 3, 3⟩)]
    ∧ (ingest_sleep true c7SleepPayload [] 3).toOption.map
        (fun out => (out.1.processed, out.2))
      = some (1, [("2024-01-15", ⟨⟨some "2024-01-14T23:00:00",
          some "2024-01-15T07:00:00", some 450, some 90, none, none, none,
          none, none, none⟩, 3, 3⟩)]) := by
  refine ⟨?_, ?_, ?_⟩
  · simp only [receive_sleep_data, c7_extract_eval]
    decide
  · simp only [receive_sleep_data, c7_extract_eval]
    decide
  · simp only [ingest_sleep, c7_gateway_eval]
    decide

/-- C8 counterexample: the `exercise_data` and `blood_glucose` CREATE TABLE
statements declare no `updated_at` column at all (only `sleep_data` has
one), so not every persisted table refreshes an `updated_at` on upsert. -/
theorem C8_missing_updated_at_columns :
    "updated_at" ∉ exercise_data_columns
    ∧ "updated_at" ∉ blood_glucose_columns
    ∧ "updated_at" ∈ sleep_data_columns := by
  decide

/-- C8 amended: all three tables carry `created_at` set on insert, but only
`sleep_data` carries `updated_at`; for the sleep table, re-ingesting the
exact same record leaves exactly one row for that date whose `created_at`
keeps the first clock and whose `updated_at` advances to the second. -/
theorem C8_sleep_audit_columns (r : ParsedSleep) (t₁ t₂ : ℕ)
    (hd : r.date ≠ "") (ht : t₁ < t₂) :
    ("created_at" ∈ sleep_data_columns ∧ "created_at" ∈ exercise_data_columns
      ∧ "created_at" ∈ blood_glucose_columns
      ∧ "updated_at" ∈ sleep_data_columns
      ∧ "updated_at" ∉ exercise_data_columns
      ∧ "updated_at" ∉ blood_glucose_columns)
    ∧ storeKeys (save_sleep_to_rds true [r]
        (save_sleep_to_rds true [r] [] t₁).1 t₂).1 = [r.date]
    ∧ storeFind r.date (save_sleep_to_rds true [r]
        (save_sleep_to_rds true [r] [] t₁).1 t₂).1 = some ⟨sleepRowOf r, t₁, t₂⟩
    ∧ t₁ < t₂ := by
  refine ⟨by decide, ?_, ?_, ht⟩ <;>
    simp [save_sleep_to_rds, batchLoop, classifySleepRest, hd, storeUpsert,
      storeKeys, storeFind]

/-- C8 witness at a concrete record and clocks 1 and 2. -/
theorem C8_sleep_audit_columns_witness :
    c8SleepRec.date ≠ "" ∧ 1 < 2
    ∧ (("created_at" ∈ sleep_data_columns ∧ "created_at" ∈ exercise_data_columns
        ∧ "created_at" ∈ blood_glucose_columns
        ∧ "updated_at" ∈ sleep_data_columns
        ∧ "updated_at" ∉ exercise_data_columns
        ∧ "updated_at" ∉ blood_glucose_columns)
      ∧ storeKeys (save_sleep_to_rds true [c8SleepRec]
          (save_sleep_to_rds true [c8SleepRec] [] 1).1 2).1 = [c8SleepRec.date]
      ∧ storeFind c8SleepRec.date (save_sleep_to_rds true [c8SleepRec]
          (save_sleep_to_rds true [c8SleepRec] [] 1).1 2).1
            = some ⟨sleepRowOf c8SleepRec, 1, 2⟩
      ∧ 1 < 2) :=
  ⟨by decide, by decide, C8_sleep_audit_columns c8SleepRec 1 2 (by decide) (by decide)⟩

/-- C9 counterexample: a glucose call whose single sample is invalid
(quantity −5) completes without any fault, processes 0 records, and reports
status `warning`, not `success`. -/
theorem C9_zero_processed_is_warning :
    (receive_glucose_data true c9GlucosePayload [] 0).2.1 = 0
    ∧ (receive_glucose_data true c9GlucosePayload [] 0).1.status = "warning" := by
  exact ⟨by decide, by decide⟩

/-- C9 amended: fault-free sleep and exercise REST calls always report
status `success`, for any processed count including 0; the glucose REST
call reports `success` exactly when the processed count is positive and
`warning` when it is 0. -/
theorem C9_status_semantics (dbUp : Bool) (sp : SleepPayload)
    (ep : ExercisePayload) (gp : GlucosePayload)
    (s₁ : SleepStore) (s₂ : ExerciseStore) (s₃ : GlucoseStore) (t : ℕ) :
    (receive_sleep_data dbUp sp s₁ t).1.status = "success"
    ∧ (receive_exercise_data dbUp ep s₂ t).1.status = "success"
    ∧ (receive_glucose_data dbUp gp s₃ t).1.status =
        (if 0 < (receive_glucose_data dbUp gp s₃ t).2.1 then "success"
         else "warning") := by
  refine ⟨rfl, rfl, ?_⟩
  simp only [receive_glucose_data]
  by_cases h : 0 < (save_glucose_to_rds dbUp (extractGlucoseRecords gp) s₃ t).2 <;>
    simp [h]

theorem classifyGlucoseRest_put_pos (r : ParsedGlucose) (k : String)
    (f : GlucoseFields) (h : classifyGlucoseRest r = .put k f) : 0 < f.value := by
  simp only [classifyGlucoseRest] at h
  split at h
  · exact absurd h (by simp)
  · split at h
    · exact absurd h (by simp)
    · split at h
      · split at h
        · exact absurd h (by simp)
        · split at h
          · exact absurd h (by simp)
          · rename_i x hx
            obtain ⟨h1, h2⟩ := RecStep.put.inj h
            subst h2
            simpa using lt_of_not_ge hx
      · exact absurd h (by simp)

theorem classifyGlucoseGrpc_put_pos (r : PbGlucoseRecord) (k : String)
    (f : GlucoseFields) (h : classifyGlucoseGrpc r = .put k f) : 0 < f.value := by
  simp only [classifyGlucoseGrpc] at h
  split at h
  · exact absurd h (by simp)
  · split at h
    · exact absurd h (by simp)
    · rename_i hv _
      obtain ⟨h1, h2⟩ := RecStep.put.inj h
      subst h2
      simpa using lt_of_not_ge hv

/-- C2: starting from any table in which every stored glucose value is
positive, both the REST `save_glucose_to_rds` loop and a successful gRPC
`ExportGlucose` call preserve that invariant (non-positive or unparseable
submitted values are never stored), and the scenario payload with qty 0 and
qty 110 yields processed 1 with only the positive sample stored. -/
theorem C2_glucose_positive_invariant
    (recs : List ParsedGlucose) (s : GlucoseStore) (t : ℕ)
    (grecs : List PbGlucoseRecord) (gs : GlucoseStore) (u : ℕ)
    (hs : ∀ k f, storeFields k s = some f → 0 < f.value)
    (hgs : ∀ k f, storeFields k gs = some f → 0 < f.value) :
    (∀ k f, storeFields k (save_glucose_to_rds true recs s t).1 = some f →
      0 < f.value)
    ∧ (∀ out, ExportGlucose true grecs gs u = .ok out →
        ∀ k f, storeFields k out.2 = some f → 0 < f.value)
    ∧ (receive_glucose_data true c2GlucosePayload [] 0).2.1 = 1
    ∧ (receive_glucose_data true c2GlucosePayload [] 0).1.status = "success"
    ∧ storeKeys (receive_glucose_data true c2GlucosePayload [] 0).2.2
        = ["2024-01-03 09:00:00"] := by
  refine ⟨?_, ?_, by decide, by decide, by decide⟩
  · rw [save_glucose_eq_batchLoop]
    exact storeFields_batchLoop_preserve _ _ _ _ _ _ hs
      (fun r _ k f hc => classifyGlucoseRest_put_pos r k f hc)
  · intro out hout k f hf
    simp only [ExportGlucose, if_true] at hout
    cases hb : batchLoopStrict classifyGlucoseGrpc u grecs gs 0 with
    | error e =>
      rw [hb] at hout
      exact absurd hout (by simp)
    | ok p =>
      obtain ⟨s2, n⟩ := p
      rw [hb] at hout
      obtain ⟨hnr, hp⟩ := batchLoopStrict_ok _ _ _ _ _ _ hb
      obtain rfl : _ = out := Except.ok.inj hout
      simp only at hf
      have hs2 : s2 = (batchLoop classifyGlucoseGrpc u grecs gs 0).1 := by
        rw [← hp]
      rw [hs2] at hf
      exact storeFields_batchLoop_preserve _ _ _ _ _ _ hgs
        (fun r _ k' f' hc => classifyGlucoseGrpc_put_pos r k' f' hc) k f hf

/-- C2 witness: the invariant applied to empty tables and one positive
sample on each transport, together with the concrete scenario. -/
theorem C2_glucose_positive_invariant_witness :
    (∀ k f, storeFields k ([] : GlucoseStore) = some f → 0 < f.value)
    ∧ ((∀ k f, storeFields k (save_glucose_to_rds true c2WitnessParsed [] 0).1
          = some f → 0 < f.value)
      ∧ (∀ out, ExportGlucose true c2WitnessPb [] 0 = .ok out →
          ∀ k f, storeFields k out.2 = some f → 0 < f.value)
      ∧ (receive_glucose_data true c2GlucosePayload [] 0).2.1 = 1
      ∧ (receive_glucose_data true c2GlucosePayload [] 0).1.status = "success"
      ∧ storeKeys (receive_glucose_data true c2GlucosePayload [] 0).2.2
          = ["2024-01-03 09:00:00"]) := by
  have hempty : ∀ k f, storeFields k ([] : GlucoseStore) = some f → 0 < f.value := by
    intro k f hf
    simp [storeFields, storeFind] at hf
  exact ⟨hempty,
    C2_glucose_positive_invariant c2WitnessParsed [] 0 c2WitnessPb [] 0 hempty hempty⟩

/-- C3: upserting two records with the same natural key in order A then B
leaves exactly B-derived values in every mutable field — the REST sleep
upsert stores `sleepRowOf B` (nulls included) for the shared date no matter
what A held, and two successive gRPC glucose calls leave B's value, unit
and source (an empty source becoming NULL even if A had one). -/
theorem C3_last_write_wins
    (A B : ParsedSleep) (s : SleepStore) (t₁ t₂ : ℕ)
    (hkey : A.date = B.date) (hvalid : B.date ≠ "")
    (GA GB : PbGlucoseRecord) (gs : GlucoseStore) (u₁ u₂ : ℕ)
    (hgkey : GA.timestamp = GB.timestamp) (hgvalid : GB.timestamp ≠ "")
    (hga : 0 < GA.value) (hgb : 0 < GB.value) :
    storeFields B.date
        (save_sleep_to_rds true [B] (save_sleep_to_rds true [A] s t₁).1 t₂).1
      = some (sleepRowOf B)
    ∧ (ExportGlucose true [GA] gs u₁).toOption.bind
        (fun o₁ => (ExportGlucose true [GB] o₁.2 u₂).toOption.map
          (fun o₂ => storeFields GB.timestamp o₂.2))
      = some (some ⟨GB.value,
          if GB.unit = "" then "mg/dL" else GB.unit, truthyStr GB.source⟩) := by
  constructor
  · rw [save_sleep_eq_batchLoop [B]]
    simp [batchLoop, classifySleepRest, hvalid, storeFields_upsert]
  · simp [ExportGlucose, batchLoopStrict, classifyGlucoseGrpc,
      not_le.mpr hga, not_le.mpr hgb, hgkey, hgvalid, storeFields_upsert,
      Except.toOption, Option.bind]

/-- C3 witness at the concrete records above. -/
theorem C3_last_write_wins_witness :
    c3SleepA.date = c3SleepB.date ∧ c3SleepB.date ≠ ""
    ∧ c3GlucoseA.timestamp = c3GlucoseB.timestamp ∧ c3GlucoseB.timestamp ≠ ""
    ∧ 0 < c3GlucoseA.value ∧ 0 < c3GlucoseB.value
    ∧ (storeFields c3SleepB.date
        (save_sleep_to_rds true [c3SleepB]
          (save_sleep_to_rds true [c3SleepA] [] 1).1 2).1
        = some (sleepRowOf c3SleepB)
      ∧ (ExportGlucose true [c3GlucoseA] [] 1).toOption.bind
          (fun o₁ => (ExportGlucose true [c3GlucoseB] o₁.2 2).toOption.map
            (fun o₂ => storeFields c3GlucoseB.timestamp o₂.2))
        = some (some ⟨c3GlucoseB.value,
            if c3GlucoseB.unit = "" then "mg/dL" else c3GlucoseB.unit,
            truthyStr c3GlucoseB.source⟩)) :=
  ⟨by decide, by decide, by decide, by decide, by decide, by decide,
    C3_last_write_wins c3SleepA c3SleepB [] 1 2 (by decide) (by decide)
      c3GlucoseA c3GlucoseB [] 1 2 (by decide) (by decide) (by decide) (by decide)⟩

theorem countP_classifySleepRest (recs : List ParsedSleep) :
    recs.countP (isPut classifySleepRest)
      + recs.countP (fun r => r.date == "") = recs.length := by
  induction recs with
  | nil => simp
  | cons r rs ih =>
    by_cases h : r.date = "" <;>
      simp [List.countP_cons, isPut, classifySleepRest, h] <;>
      omega

/-- C4 counterexample: a gRPC sleep batch of N = 2 records of which exactly
one has an empty required date raises out of the call (nothing is
committed), instead of storing the other record and reporting processed 1. -/
theorem C4_grpc_batch_aborts :
    ExportSleep true
        [⟨"2024-02-01", "", "", 400, 0, 0, 0, 0, 0, 0, 0⟩,
         ⟨"", "", "", 300, 0, 0, 0, 0, 0, 0, 0⟩] [] 0 = .error ()
    ∧ exportSleepState true
        [⟨"2024-02-01", "", "", 400, 0, 0, 0, 0, 0, 0, 0⟩,
         ⟨"", "", "", 300, 0, 0, 0, 0, 0, 0, 0⟩] [] 0 = [] := by
  exact ⟨by decide, by decide⟩

/-- C4 amended: in the REST pipeline, a sleep batch in which exactly one
record has an empty required date stores the other N − 1 records (every
valid date ends up as a key) and reports processed = N − 1, the batch never
aborting; in the gRPC `ExportSleep`, by contrast, any batch containing a
record with an empty date raises out of the whole call. -/
theorem C4_partial_failure_isolation
    (recs : List ParsedSleep) (s : SleepStore) (t : ℕ)
    (hone : recs.countP (fun r => r.date == "") = 1)
    (grecs : List PbSleepRecord) (gs : SleepStore) (u : ℕ)
    (hbad : ∃ r ∈ grecs, r.date = "") :
    (save_sleep_to_rds true recs s t).2 = recs.length - 1
    ∧ (∀ r ∈ recs, r.date ≠ "" →
        r.date ∈ storeKeys (save_sleep_to_rds true recs s t).1)
    ∧ ExportSleep true grecs gs u = .error () := by
  refine ⟨?_, ?_, ?_⟩
  · rw [save_sleep_eq_batchLoop, count_batchLoop]
    have := countP_classifySleepRest recs
    omega
  · intro r hr hd
    have hc : classifySleepRest r = .put r.date (sleepRowOf r) := by
      simp [classifySleepRest, hd]
    have hsome := lastPutValue_isSome_of_mem classifySleepRest recs r r.date
      (sleepRowOf r) hr hc
    rw [save_sleep_eq_batchLoop]
    apply mem_storeKeys_of_storeFields
    rw [storeFields_batchLoop]
    cases hv : lastPutValue classifySleepRest r.date recs with
    | some v => simp
    | none =>
      rw [hv] at hsome
      simp at hsome
  · obtain ⟨r, hr, hd⟩ := hbad
    have hc : classifySleepGrpc r = .raise_ := by simp [classifySleepGrpc, hd]
    simp only [ExportSleep, if_true]
    rw [batchLoopStrict_error_of_raise _ _ _ _ _ ⟨r, hr, hc⟩]

/-- C4 witness at the concrete batches above. -/
theorem C4_partial_failure_isolation_witness :
    c4SleepBatch.countP (fun r => r.date == "") = 1
    ∧ (∃ r ∈ c4PbBatch, r.date = "")
    ∧ ((save_sleep_to_rds true c4SleepBatch [] 0).2 = c4SleepBatch.length - 1
      ∧ (∀ r ∈ c4SleepBatch, r.date ≠ "" →
          r.date ∈ storeKeys (save_sleep_to_rds true c4SleepBatch [] 0).1)
      ∧ ExportSleep true c4PbBatch [] 0 = .error ()) :=
  ⟨by decide, by decide,
    C4_partial_failure_isolation c4SleepBatch [] 0 (by decide)
      c4PbBatch [] 0 (by decide)⟩

theorem exportSleepState_of_raise (grecs : List PbSleepRecord)
    (gs : SleepStore) (u : ℕ)
    (h : ∃ r ∈ grecs, classifySleepGrpc r = .raise_) :
    exportSleepState true grecs gs u = gs := by
  simp only [exportSleepState, ExportSleep, if_true]
  rw [batchLoopStrict_error_of_raise _ _ _ _ _ h]

theorem exportSleepState_of_no_raise (grecs : List PbSleepRecord)
    (gs : SleepStore) (u : ℕ)
    (h : ∀ r ∈ grecs, classifySleepGrpc r ≠ .raise_) :
    exportSleepState true grecs gs u =
      (batchLoop classifySleepGrpc u grecs gs 0).1 := by
  simp only [exportSleepState, ExportSleep, if_true]
  rw [batchLoopStrict_ok_of_no_raise _ _ _ _ _ h]

/-- C5: ingesting the identical batch twice leaves the same stored field
values at every key as ingesting it once and never creates a duplicate row
per natural key — for the REST exercise pipeline, and for the committed
state of the gRPC sleep pipeline (where an erroring batch commits nothing
both times). -/
theorem C5_reingest_idempotent
    (recs : List ParsedExercise) (s : ExerciseStore) (t₁ t₂ : ℕ)
    (hnd : (storeKeys s).Nodup)
    (grecs : List PbSleepRecord) (gs : SleepStore) (u₁ u₂ : ℕ)
    (hgnd : (storeKeys gs).Nodup) :
    ((∀ k, storeFields k
        (save_exercise_to_rds true recs
          (save_exercise_to_rds true recs s t₁).1 t₂).1
        = storeFields k (save_exercise_to_rds true recs s t₁).1)
      ∧ (storeKeys (save_exercise_to_rds true recs
          (save_exercise_to_rds true recs s t₁).1 t₂).1).Nodup)
    ∧ ((∀ k, storeFields k
        (exportSleepState true grecs (exportSleepState true grecs gs u₁) u₂)
        = storeFields k (exportSleepState true grecs gs u₁))
      ∧ (storeKeys (exportSleepState true grecs
          (exportSleepState true grecs gs u₁) u₂)).Nodup) := by
  constructor
  · simp only [save_exercise_eq_batchLoop]
    exact ⟨fun k => batchLoop_idem classifyExerciseRest t₁ t₂ recs s k,
      nodup_batchLoop _ _ _ _ _ (nodup_batchLoop _ _ _ _ _ hnd)⟩
  · by_cases hr : ∃ r ∈ grecs, classifySleepGrpc r = .raise_
    · have hh : ∀ (gs' : SleepStore) (u : ℕ),
          exportSleepState true grecs gs' u = gs' :=
        fun gs' u => exportSleepState_of_raise grecs gs' u hr
      rw [hh gs u₁, hh gs u₂]
      exact ⟨fun k => rfl, hgnd⟩
    · push_neg at hr
      have hh : ∀ (gs' : SleepStore) (u : ℕ),
          exportSleepState true grecs gs' u =
            (batchLoop classifySleepGrpc u grecs gs' 0).1 :=
        fun gs' u => exportSleepState_of_no_raise grecs gs' u hr
      rw [hh gs u₁, hh _ u₂]
      exact ⟨fun k => batchLoop_idem classifySleepGrpc u₁ u₂ grecs gs k,
        nodup_batchLoop _ _ _ _ _ (nodup_batchLoop _ _ _ _ _ hgnd)⟩

/-- C5 witness at the concrete batches above, from empty tables. -/
theorem C5_reingest_idempotent_witness :
    (storeKeys ([] : ExerciseStore)).Nodup
    ∧ (storeKeys ([] : SleepStore)).Nodup
    ∧ (((∀ k, storeFields k
        (save_exercise_to_rds true c5ExerciseBatch
          (save_exercise_to_rds true c5ExerciseBatch [] 1).1 2).1
        = storeFields k (save_exercise_to_rds true c5ExerciseBatch [] 1).1)
      ∧ (storeKeys (save_exercise_to_rds true c5ExerciseBatch
          (save_exercise_to_rds true c5ExerciseBatch [] 1).1 2).1).Nodup)
    ∧ ((∀ k, storeFields k
        (exportSleepState true c5PbSleepBatch
          (exportSleepState true c5PbSleepBatch [] 1) 2)
        = storeFields k (exportSleepState true c5PbSleepBatch [] 1))
      ∧ (storeKeys (exportSleepState true c5PbSleepBatch
          (exportSleepState true c5PbSleepBatch [] 1) 2)).Nodup)) :=
  ⟨by decide, by decide,
    C5_reingest_idempotent c5ExerciseBatch [] 1 2 (by decide)
      c5PbSleepBatch [] 1 2 (by decide)⟩

/-- C10: every glucose record produced from a metrics-shape payload carries
the constant unit `mg/dL` — by the REST normalizer and by the gateway — no
matter what `units` value the sample carries; and a stored sample keeps its
raw quantity unconverted (value `q`) next to that constant unit. -/
theorem C10_unit_always_mgdl
    (p : GlucosePayload) (s : GlucoseStore) (t : ℕ)
    (d : String) (q : ℚ) (src units : Option String)
    (hd : d ≠ "") (hq : 0 < q) :
    (∀ r ∈ extractGlucoseRecords p, r.unit = "mg/dL")
    ∧ (∀ r ∈ gatewayGlucoseRecords p, r.unit = "mg/dL")
    ∧ storeFields d (receive_glucose_data true
        (some ⟨some [⟨some [⟨some d, some (.num q), src, units⟩]⟩]⟩) s t).2.2
      = some ⟨q, "mg/dL", truthyStr (src.getD "")⟩ := by
  refine ⟨?_, ?_, ?_⟩
  · intro r hr
    rcases p with _ | body
    · simp [extractGlucoseRecords] at hr
    · rcases body with ⟨_ | ms⟩
      · simp [extractGlucoseRecords] at hr
      · simp only [extractGlucoseRecords, List.mem_flatMap] at hr
        obtain ⟨m, hm, hr⟩ := hr
        rcases m with ⟨_ | samples⟩
        · simp at hr
        · simp only [List.mem_map] at hr
          obtain ⟨smp, hs2, rfl⟩ := hr
          rfl
  · intro r hr
    rcases p with _ | body
    · simp [gatewayGlucoseRecords] at hr
    · rcases body with ⟨_ | ms⟩
      · simp [gatewayGlucoseRecords] at hr
      · simp only [gatewayGlucoseRecords, List.mem_flatMap] at hr
        obtain ⟨m, hm, hr⟩ := hr
        simp only [List.mem_filterMap] at hr
        obtain ⟨smp, hs2, hr⟩ := hr
        rcases hq2 : smp.qty with _ | q2
        · rw [hq2] at hr
          simp only at hr
          obtain rfl := Option.some.inj hr
          rfl
        · rcases q2 with q2 | s2
          · rw [hq2] at hr
            simp only at hr
            obtain rfl := Option.some.inj hr
            rfl
          · rw [hq2] at hr
            exact Option.noConfusion hr
  · have hqt : qtyTruthy (.num q) = true := by
      simp [qtyTruthy, hq.ne']
    simp [receive_glucose_data, extractGlucoseRecords, save_glucose_to_rds,
      batchLoop, classifyGlucoseRest, hqt, hd, not_le.mpr hq,
      storeFields_upsert]

/-- C10 witness at the concrete payload above (source Dexcom, units key
mmol/L), checking also the two normalizer clauses on that payload. -/
theorem C10_unit_always_mgdl_witness :
    ("2024-01-08 07:45:00" : String) ≠ "" ∧ (0 : ℚ) < 105
    ∧ ((∀ r ∈ extractGlucoseRecords c10GlucosePayload, r.unit = "mg/dL")
      ∧ (∀ r ∈ gatewayGlucoseRecords c10GlucosePayload, r.unit = "mg/dL")
      ∧ storeFields "2024-01-08 07:45:00" (receive_glucose_data true
          (some ⟨some [⟨some [⟨some "2024-01-08 07:45:00", some (.num 105),
            some "Dexcom", some "mmol/L"⟩]⟩]⟩) [] 0).2.2
        = some ⟨105, "mg/dL", truthyStr ((some "Dexcom").getD "")⟩) :=
  ⟨by decide, by decide,
    C10_unit_always_mgdl c10GlucosePayload [] 0 "2024-01-08 07:45:00" 105
      (some "Dexcom") (some "mmol/L") (by decide) (by decide)⟩
